import Mathlib

/-!
Verification of the `pymatcalc` wrapper (`src/pymatcalc/api.py`,
`src/pymatcalc/utils.py`, `src/pymatcalc6/utils.py`).

The repository is a thin foreign-function binding over an opaque native
thermodynamics library.  We embed the wrapper shallowly:

* the native library surface is an oracle record `Native` whose fields are the
  six bound entry points (doubles are modelled as `Rat`, byte-string arguments
  as `String` — UTF-8 encoding is injective, so passing the decoded text is
  faithful);
* a Python method that either returns normally or raises becomes a function
  into `Except String α`, the error payload being the exception message
  (Python `RuntimeError`/`ValueError` carry exactly a message string);
* methods whose observable behaviour includes the sequence of native calls or
  process-level side effects additionally return an explicit trace;
* the float-to-text rendering done by Python f-strings is abstracted by taking
  the already-rendered decimal text of the value as the argument
  (Python `str(0.002) = "0.002"`).
-/

/-- The six native entry points bound by `MatCalcAPI._registered_functions`.
An arbitrary `Native` value is one possible behaviour of the opaque vendor
library; wrapper theorems quantify over it. -/
structure Native where
  initializeExternalConstChar : String → Bool → Bool
  processCommandLineInput : String → Int
  processCommandLineInputNewColine : String → Int
  calcEquilibrium : Bool → Int → Int
  setTemperature : Rat → Bool → Rat
  getMCVariable : String → Rat

namespace MatCalcAPI

/-- `MatCalcAPI.execute_command` (api.py lines 135-143): encode the command,
invoke `MCCOL_ProcessCommandLineInput`, raise
`RuntimeError(f"Err nr {error_code} while executing '{cmd}'")` when the
return code is nonzero, return `None` (here `.ok ()`) otherwise. -/
def execute_command (nat : Native) (cmd : String) : Except String Unit :=
  let error_code := nat.processCommandLineInput cmd
  if error_code ≠ 0 then
    Except.error ("Err nr " ++ toString error_code ++ " while executing \x27" ++ cmd ++ "\x27")
  else
    Except.ok ()

/-- `MatCalcAPI.execute_command_new_coline` (api.py lines 145-153): identical
contract, routed through `MCCOL_ProcessCommandLineInputNewColine`.  The spec
refers to this operation as `execute_command_new_line`. -/
def execute_command_new_coline (nat : Native) (cmd : String) : Except String Unit :=
  let error_code := nat.processCommandLineInputNewColine cmd
  if error_code ≠ 0 then
    Except.error ("Err nr " ++ toString error_code ++ " while executing \x27" ++ cmd ++ "\x27")
  else
    Except.ok ()

/-- One native call made by the wrapper, recorded in order of invocation. -/
inductive Call
  | initExternal (dir : String) (flag : Bool)
  | processCmd (cmd : String)
  deriving DecidableEq, Repr

/-- `MatCalcAPI.init` (api.py lines 122-133): calls
`MCC_InitializeExternalConstChar(str(self.application_directory).encode("utf-8"), True)`,
then `MCCOL_ProcessCommandLineInput(b"set-working-directory ./")`, then
`MCCOL_ProcessCommandLineInput(f"set-application-directory {dir}".encode("utf-8"))`.
All three native return values are bound to nothing and discarded; the method
body contains no `raise` and ends returning `None`, so the result component is
always `.ok ()`.  The first component records the native calls made, in
order. -/
def init (nat : Native) (application_directory : String) :
    List Call × Except String Unit :=
  let _r1 := nat.initializeExternalConstChar application_directory true
  let _r2 := nat.processCommandLineInput "set-working-directory ./"
  let _r3 := nat.processCommandLineInput
    ("set-application-directory " ++ application_directory)
  ([Call.initExternal application_directory true,
    Call.processCmd "set-working-directory ./",
    Call.processCmd ("set-application-directory " ++ application_directory)],
   Except.ok ())

/-- `MatCalcAPI.set_temperature_kelvin` (api.py lines 161-167): calls
`MCC_SetTemperature(temperature_kelvin, False)` and discards the returned
double; no `raise` is reachable, so it always returns `None` (`.ok ()`). -/
def set_temperature_kelvin (nat : Native) (temperature_kelvin : Rat) :
    Except String Unit :=
  let _r := nat.setTemperature temperature_kelvin false
  Except.ok ()

/-- `MatCalcAPI.get_variable` (api.py lines 196-205): returns
`MCC_GetMCVariable(variable.encode("utf-8"))` directly, with no validation of
the name and no error path in the wrapper. -/
def get_variable (nat : Native) (name : String) : Except String Rat :=
  Except.ok (nat.getMCVariable name)

/-- `MatCalcAPI.set_element_mole_fraction` (api.py lines 169-176): forwards
`f"enter-composition X {element_symbol}={value}"` through `execute_command`.
The float `value` is represented by its decimal rendering `value_text`
(Python `str(0.002) = "0.002"`). -/
def set_element_mole_fraction (nat : Native) (element_symbol value_text : String) :
    Except String Unit :=
  execute_command nat ("enter-composition X " ++ element_symbol ++ "=" ++ value_text)

/-- `MatCalcAPI.set_element_weight_fraction` (api.py lines 178-185): forwards
`f"enter-composition W {element_symbol}={value}"` through `execute_command`. -/
def set_element_weight_fraction (nat : Native) (element_symbol value_text : String) :
    Except String Unit :=
  execute_command nat ("enter-composition W " ++ element_symbol ++ "=" ++ value_text)

/-- `MatCalcAPI.set_element_site_fraction` (api.py lines 187-194): forwards
`f"enter-composition U {element_symbol}={value}"` through `execute_command`. -/
def set_element_site_fraction (nat : Native) (element_symbol value_text : String) :
    Except String Unit :=
  execute_command nat ("enter-composition U " ++ element_symbol ++ "=" ++ value_text)

end MatCalcAPI

/-- A concrete possible behaviour of the native library, used to witness the
wrapper theorems: it accepts `select-element C` (code 0) and rejects every
other command with code 17. -/
def mockNative : Native where
  initializeExternalConstChar := fun _ _ => true
  processCommandLineInput := fun c => if c = "select-element C" then 0 else 17
  processCommandLineInputNewColine := fun c => if c = "select-element C" then 0 else 17
  calcEquilibrium := fun _ _ => 0
  setTemperature := fun t _ => t
  getMCVariable := fun _ => 0

/-- C1: for every command string, `execute_command` completes silently
(`.ok ()`, no return value) exactly when the native command-processing entry
point returns 0; when the return code is nonzero it raises an error whose
message carries that return code (the message is
`"Err nr <code> while executing '<cmd>'"`) and contains the original command
text; `execute_command_new_coline` (the spec's `execute_command_new_line`) has
the identical contract through its distinct entry point. -/
theorem execute_command_contract (nat : Native) (cmd : String) :
    (nat.processCommandLineInput cmd = 0 →
      MatCalcAPI.execute_command nat cmd = Except.ok ()) ∧
    (nat.processCommandLineInput cmd ≠ 0 →
      MatCalcAPI.execute_command nat cmd =
        Except.error ("Err nr " ++ toString (nat.processCommandLineInput cmd) ++
          " while executing \x27" ++ cmd ++ "\x27") ∧
      ∃ pre post,
        ("Err nr " ++ toString (nat.processCommandLineInput cmd) ++
          " while executing \x27" ++ cmd ++ "\x27") = pre ++ cmd ++ post) ∧
    (nat.processCommandLineInputNewColine cmd = 0 →
      MatCalcAPI.execute_command_new_coline nat cmd = Except.ok ()) ∧
    (nat.processCommandLineInputNewColine cmd ≠ 0 →
      MatCalcAPI.execute_command_new_coline nat cmd =
        Except.error ("Err nr " ++ toString (nat.processCommandLineInputNewColine cmd) ++
          " while executing \x27" ++ cmd ++ "\x27") ∧
      ∃ pre post,
        ("Err nr " ++ toString (nat.processCommandLineInputNewColine cmd) ++
          " while executing \x27" ++ cmd ++ "\x27") = pre ++ cmd ++ post) := by
  refine ⟨fun h => ?_, fun h => ⟨?_, ?_⟩, fun h => ?_, fun h => ⟨?_, ?_⟩⟩
  · simp [MatCalcAPI.execute_command, h]
  · simp [MatCalcAPI.execute_command, h]
  · exact ⟨"Err nr " ++ toString (nat.processCommandLineInput cmd) ++ " while executing \x27",
      "\x27", by simp [String.append_assoc]⟩
  · simp [MatCalcAPI.execute_command_new_coline, h]
  · simp [MatCalcAPI.execute_command_new_coline, h]
  · exact ⟨"Err nr " ++ toString (nat.processCommandLineInputNewColine cmd) ++
      " while executing \x27", "\x27", by simp [String.append_assoc]⟩

/-- C1 witness: at the mock native, `select-element C` (code 0) succeeds
silently and `select-element Zz` (code 17) raises the error message carrying
code 17 and containing the command text. -/
theorem execute_command_contract_witness :
    MatCalcAPI.execute_command mockNative "select-element C" = Except.ok () ∧
    MatCalcAPI.execute_command mockNative "select-element Zz" =
      Except.error "Err nr 17 while executing \x27select-element Zz\x27" ∧
    MatCalcAPI.execute_command_new_coline mockNative "select-element Zz" =
      Except.error "Err nr 17 while executing \x27select-element Zz\x27" := by
  have h1 := (execute_command_contract mockNative "select-element C").1 (by decide)
  have h2 := ((execute_command_contract mockNative "select-element Zz").2.1 (by decide)).1
  have h3 := ((execute_command_contract mockNative "select-element Zz").2.2.2 (by decide)).1
  exact ⟨h1, by rw [h2]; rfl, by rw [h3]; rfl⟩

/-- A native behaviour that rejects every command with code 7, used to show
that `init` ignores the bootstrap commands' return codes. -/
def failingNative : Native where
  initializeExternalConstChar := fun _ _ => true
  processCommandLineInput := fun _ => 7
  processCommandLineInputNewColine := fun _ => 7
  calcEquilibrium := fun _ _ => 7
  setTemperature := fun t _ => t
  getMCVariable := fun _ => 0

/-- C2 counterexample: with a native layer that returns code 7 for every
command (in particular for both bootstrap commands), `init` still completes
without error — the nonzero return codes of the bootstrap commands do NOT
propagate to the caller, contrary to the claim. -/
theorem init_error_propagation_counterexample :
    failingNative.processCommandLineInput "set-working-directory ./" = 7 ∧
    failingNative.processCommandLineInput "set-application-directory C:/MatCalc" = 7 ∧
    (MatCalcAPI.init failingNative "C:/MatCalc").2 = Except.ok () := by
  exact ⟨rfl, rfl, rfl⟩

/-- C2 (amended): `init()` invokes the native initialization entry point with
the application directory and a boolean flag fixed to true, then issues the
two fixed bootstrap commands (`set-working-directory ./` and
`set-application-directory <dir>`) through the raw command-processing entry
point; it returns no value, and the return codes of the initialization call
and of both bootstrap commands are discarded, so `init` never raises — in
particular a nonzero bootstrap return code does not propagate to the caller. -/
theorem init_calls_and_result (nat : Native) (dir : String) :
    MatCalcAPI.init nat dir =
      ([MatCalcAPI.Call.initExternal dir true,
        MatCalcAPI.Call.processCmd "set-working-directory ./",
        MatCalcAPI.Call.processCmd ("set-application-directory " ++ dir)],
       Except.ok ()) := by
  rfl

/-- C3: `set_element_mole_fraction("C", 0.002)` produces the exact command
text `"enter-composition X C=0.002"` and forwards it through
`execute_command`; `set_element_weight_fraction` and
`set_element_site_fraction` produce the analogous text with mode letters `W`
and `U`, all three inheriting `execute_command`'s error semantics by
forwarding the formatted command through it verbatim. -/
theorem composition_setters_format (nat : Native) (sym val : String) :
    MatCalcAPI.set_element_mole_fraction nat "C" "0.002" =
      MatCalcAPI.execute_command nat "enter-composition X C=0.002" ∧
    MatCalcAPI.set_element_mole_fraction nat sym val =
      MatCalcAPI.execute_command nat ("enter-composition X " ++ sym ++ "=" ++ val) ∧
    MatCalcAPI.set_element_weight_fraction nat sym val =
      MatCalcAPI.execute_command nat ("enter-composition W " ++ sym ++ "=" ++ val) ∧
    MatCalcAPI.set_element_site_fraction nat sym val =
      MatCalcAPI.execute_command nat ("enter-composition U " ++ sym ++ "=" ++ val) := by
  exact ⟨rfl, rfl, rfl, rfl⟩

/-- C6: for every native behaviour and every input, the wrapper never raises
from `set_temperature_kelvin` or `get_variable`: `set_temperature_kelvin`
discards the native double return value and returns nothing (`.ok ()`), and
`get_variable` returns the native floating-point result directly — no
validation of the name, no distinguishable unknown-variable error. -/
theorem silent_operations_never_raise (nat : Native) (t : Rat) (name : String) :
    MatCalcAPI.set_temperature_kelvin nat t = Except.ok () ∧
    MatCalcAPI.get_variable nat name = Except.ok (nat.getMCVariable name) := by
  exact ⟨rfl, rfl⟩

/-- A file of the application directory as seen by the locator: its name and
its size in bytes (`Path.stat().st_size`). -/
structure MCFile where
  name : String
  size : Nat
  deriving DecidableEq, Repr

/-- Character-list prefix test: `charsPrefix p s` is true iff `p` is an
initial segment of `s`. -/
def charsPrefix : List Char → List Char → Bool
  | [], _ => true
  | _ :: _, [] => false
  | c :: cs, d :: ds => c == d && charsPrefix cs ds

/-- `s.startsWith p`, expressed on the underlying character lists (the two
agree: a string starts with `p` iff `p`'s characters are an initial segment
of `s`'s characters). -/
def stringStartsWith (s p : String) : Bool :=
  charsPrefix p.data s.data

/-- `_get_shared_library_extension` (api.py lines 22-30): three-way platform
switch on `sys.platform.startswith(...)` (the prefix test modelled by
`stringStartsWith`), with the sentinel string `"Unknown OS"` for any other
platform. -/
def _get_shared_library_extension (platform : String) : String :=
  if stringStartsWith platform "win" then ".dll"
  else if stringStartsWith platform "darwin" then ".dylib"
  else if stringStartsWith platform "linux" then ".so"
  else "Unknown OS"

/-- Whether a file name is matched by one of the two glob patterns
`f"{prefix}mc_core{shlib_suffix}*"` for `prefix` in `["", "lib"]`
(api.py lines 100-104): a glob whose only wildcard is a trailing `*` matches
exactly the names having the literal part as a prefix. -/
def matchesPattern (shlib_suffix : String) (name : String) : Bool :=
  stringStartsWith name ("mc_core" ++ shlib_suffix) ||
    stringStartsWith name ("lib" ++ "mc_core" ++ shlib_suffix)

/-- Models `fpath.resolve()`: the absolute path of a file of the application
directory (the symlink-free abstraction `dir/name`). -/
def resolve (dirPath : String) (f : MCFile) : String :=
  dirPath ++ "/" ++ f.name

/-- The comparison key of `sorted(matching_files, key=lambda file: file.stat().st_size)`. -/
def sizeLE (a b : MCFile) : Prop :=
  a.size ≤ b.size

instance : DecidableRel sizeLE :=
  fun a b => Nat.decLe a.size b.size

instance : IsTotal MCFile sizeLE :=
  ⟨fun a b => Nat.le_total a.size b.size⟩

instance : IsTrans MCFile sizeLE :=
  ⟨fun _ _ _ h1 h2 => Nat.le_trans h1 h2⟩

lemma insertionSort_sizeLE_ne_nil {l : List MCFile} (h : l ≠ []) :
    List.insertionSort sizeLE l ≠ [] := by
  intro hs
  apply h
  exact (List.Perm.symm (List.perm_insertionSort sizeLE l) |>.trans (hs ▸ List.Perm.refl _)).eq_nil

/-- `MatCalcAPI._find_mc_core_library_file` (api.py lines 96-113): collect the
resolved paths of the files matching either glob pattern; raise
`ValueError(f"Could not find mc_core library file in '{dir}'")` when there are
none; otherwise sort by file size and `pop()` the last (largest) one.
Resolution does not change a file's size, so sorting the files and resolving
the selected one is equivalent to the source's sorting of resolved paths. -/
def _find_mc_core_library_file (shlib_suffix dirPath : String)
    (files : List MCFile) : Except String String :=
  let matching_files := files.filter (fun f => matchesPattern shlib_suffix f.name)
  if h : matching_files = [] then
    Except.error ("Could not find mc_core library file in \x27" ++ dirPath ++ "\x27")
  else
    Except.ok (resolve dirPath
      ((List.insertionSort sizeLE matching_files).getLast (insertionSort_sizeLE_ne_nil h)))

lemma sorted_sizeLE_le_getLast :
    ∀ {l : List MCFile} (_ : List.Sorted sizeLE l) (hne : l ≠ []) (x : MCFile),
      x ∈ l → sizeLE x (l.getLast hne)
  | [], _, hne, _, _ => absurd rfl hne
  | [a], _, _, x, hx => by
      rcases List.mem_singleton.mp hx with rfl
      exact Nat.le_refl _
  | a :: b :: t, hs, _, x, hx => by
      have htail : b :: t ≠ [] := List.cons_ne_nil b t
      have hrec := sorted_sizeLE_le_getLast (List.sorted_cons.mp hs).2 htail
      rw [List.getLast_cons htail]
      rcases List.mem_cons.mp hx with rfl | hx
      · exact Nat.le_trans
          ((List.sorted_cons.mp hs).1 _ (List.getLast_mem htail))
          (Nat.le_refl _)
      · exact hrec x hx

lemma find_ok_of_strict_max (shlib_suffix dirPath : String) (files : List MCFile)
    (fmax : MCFile) (hmem : fmax ∈ files)
    (hmatch : matchesPattern shlib_suffix fmax.name = true)
    (hmax : ∀ g ∈ files, matchesPattern shlib_suffix g.name = true → g ≠ fmax →
      g.size < fmax.size) :
    _find_mc_core_library_file shlib_suffix dirPath files =
      Except.ok (resolve dirPath fmax) := by
  have hmemf : fmax ∈ files.filter (fun f => matchesPattern shlib_suffix f.name) :=
    List.mem_filter.mpr ⟨hmem, hmatch⟩
  have hne : files.filter (fun f => matchesPattern shlib_suffix f.name) ≠ [] :=
    List.ne_nil_of_mem hmemf
  rw [_find_mc_core_library_file, dif_neg hne]
  have hsne := insertionSort_sizeLE_ne_nil hne
  have hlast :
      (List.insertionSort sizeLE
        (files.filter (fun f => matchesPattern shlib_suffix f.name))).getLast hsne = fmax := by
    set L := List.insertionSort sizeLE
      (files.filter (fun f => matchesPattern shlib_suffix f.name)) with hL
    have hsorted : List.Sorted sizeLE L := List.sorted_insertionSort sizeLE _
    have hlmem : L.getLast hsne ∈ L := List.getLast_mem hsne
    have hlmem2 : L.getLast hsne ∈
        files.filter (fun f => matchesPattern shlib_suffix f.name) :=
      (List.mem_insertionSort sizeLE).mp hlmem
    have hmemL : fmax ∈ L := (List.mem_insertionSort sizeLE).mpr hmemf
    have hle : fmax.size ≤ (L.getLast hsne).size :=
      sorted_sizeLE_le_getLast hsorted hsne fmax hmemL
    by_contra hneq
    have hf := List.mem_filter.mp hlmem2
    have hlt : (L.getLast hsne).size < fmax.size := hmax _ hf.1 hf.2 hneq
    exact Nat.lt_irrefl _ (Nat.lt_of_le_of_lt hle hlt)
  rw [hlast]

lemma find_ok_of_singleton (shlib_suffix dirPath : String) (files : List MCFile)
    (f : MCFile)
    (hfilter : files.filter (fun g => matchesPattern shlib_suffix g.name) = [f]) :
    _find_mc_core_library_file shlib_suffix dirPath files =
      Except.ok (resolve dirPath f) := by
  have hf : f ∈ files.filter (fun g => matchesPattern shlib_suffix g.name) := by
    rw [hfilter]; exact List.mem_singleton_self f
  have hmf := List.mem_filter.mp hf
  apply find_ok_of_strict_max shlib_suffix dirPath files f hmf.1 hmf.2
  intro g hg hmg hne
  exfalso
  apply hne
  have hgf : g ∈ files.filter (fun g => matchesPattern shlib_suffix g.name) :=
    List.mem_filter.mpr ⟨hg, hmg⟩
  rw [hfilter] at hgf
  exact List.mem_singleton.mp hgf

lemma find_error_of_no_match (shlib_suffix dirPath : String) (files : List MCFile)
    (h : ∀ f ∈ files, matchesPattern shlib_suffix f.name = false) :
    _find_mc_core_library_file shlib_suffix dirPath files =
      Except.error ("Could not find mc_core library file in \x27" ++ dirPath ++ "\x27") := by
  have hnil : files.filter (fun f => matchesPattern shlib_suffix f.name) = [] := by
    rw [List.filter_eq_nil_iff]
    intro a ha
    simp [h a ha]
  rw [_find_mc_core_library_file, dif_pos hnil]

/-- C4: for an application directory whose files include a matching library
file `fmax` strictly larger than every other matching file (the situation for
any set of more than one matching file of pairwise distinct sizes), the
locator returns the resolved absolute path of `fmax`; for a directory with
exactly one matching file it returns that file's resolved absolute path. -/
theorem locator_selects_largest (shlib_suffix dirPath : String) (files : List MCFile) :
    (∀ fmax ∈ files, matchesPattern shlib_suffix fmax.name = true →
      (∀ g ∈ files, matchesPattern shlib_suffix g.name = true → g ≠ fmax →
        g.size < fmax.size) →
      _find_mc_core_library_file shlib_suffix dirPath files =
        Except.ok (resolve dirPath fmax)) ∧
    (∀ f, files.filter (fun g => matchesPattern shlib_suffix g.name) = [f] →
      _find_mc_core_library_file shlib_suffix dirPath files =
        Except.ok (resolve dirPath f)) := by
  constructor
  · intro fmax hmem hmatch hmax
    exact find_ok_of_strict_max shlib_suffix dirPath files fmax hmem hmatch hmax
  · intro f hf
    exact find_ok_of_singleton shlib_suffix dirPath files f hf

/-- C4 witness: on a Linux-style directory holding a 100-byte `mc_core.so`
and a 500-byte `libmc_core.so.1` (plus a non-matching file), the locator
returns the resolved path of the larger matching file; on a directory whose
only matching file is `mc_core.so`, it returns that file's resolved path. -/
theorem locator_selects_largest_witness :
    _find_mc_core_library_file ".so" "/opt/app"
      [⟨"mc_core.so", 100⟩, ⟨"libmc_core.so.1", 500⟩, ⟨"notes.txt", 9999⟩] =
      Except.ok "/opt/app/libmc_core.so.1" ∧
    _find_mc_core_library_file ".so" "/opt/app"
      [⟨"mc_core.so", 100⟩, ⟨"notes.txt", 9999⟩] =
      Except.ok "/opt/app/mc_core.so" := by
  constructor
  · have h := (locator_selects_largest ".so" "/opt/app"
      [⟨"mc_core.so", 100⟩, ⟨"libmc_core.so.1", 500⟩, ⟨"notes.txt", 9999⟩]).1
      ⟨"libmc_core.so.1", 500⟩ (by decide) (by decide) (by decide)
    rw [h]; rfl
  · have h := (locator_selects_largest ".so" "/opt/app"
      [⟨"mc_core.so", 100⟩, ⟨"notes.txt", 9999⟩]).2
      ⟨"mc_core.so", 100⟩ (by decide)
    rw [h]; rfl

/-- C5: for an application directory containing zero files matching the
platform-specific library naming pattern, the locator fails with the
`Could not find mc_core library file in '<dir>'` resolution error, whose
message names the searched directory; being a pure function of the directory
listing, it has no side effects. -/
theorem locator_error_when_empty (shlib_suffix dirPath : String) (files : List MCFile)
    (h : ∀ f ∈ files, matchesPattern shlib_suffix f.name = false) :
    _find_mc_core_library_file shlib_suffix dirPath files =
      Except.error ("Could not find mc_core library file in \x27" ++ dirPath ++ "\x27") ∧
    ∃ pre post,
      ("Could not find mc_core library file in \x27" ++ dirPath ++ "\x27") =
        pre ++ dirPath ++ post := by
  refine ⟨find_error_of_no_match shlib_suffix dirPath files h,
    ⟨"Could not find mc_core library file in \x27", "\x27", ?_⟩⟩
  simp [String.append_assoc]

/-- C5 witness: a directory with no file matching `mc_core.so*` or
`libmc_core.so*` yields the resolution error naming the directory. -/
theorem locator_error_when_empty_witness :
    _find_mc_core_library_file ".so" "/opt/app" [⟨"readme.txt", 10⟩] =
      Except.error "Could not find mc_core library file in \x27/opt/app\x27" := by
  have h := (locator_error_when_empty ".so" "/opt/app" [⟨"readme.txt", 10⟩] (by decide)).1
  rw [h]; rfl

/-- A process-level side effect of `MatCalcAPI.__init__`, in order of
occurrence. -/
inductive CtorEffect
  | chdir (dir : String)
  | loadLibrary (path : String)
  deriving DecidableEq, Repr

/-- `pathlib.Path(s)` on a string: the empty string normalizes to `"."`
(`Path("") == Path(".")`); other strings are kept as given (the further
normalizations `Path` performs do not matter for the paths exercised here). -/
def pathOf (s : String) : String :=
  if s = "" then "." else s

/-- The application-directory resolution of `MatCalcAPI.__init__`
(api.py lines 84-86):
`Path(application_directory or os.getenv("MATCALC_DIR", "."))`.
Python `or` falls through on a falsy value, i.e. on `None` (here `none`) and
on the empty string; `os.getenv` returns the variable's value when the
variable is set (modelled as `some e`) and the default `"."` otherwise. -/
def resolveAppDir (application_directory envMatcalcDir : Option String) : String :=
  pathOf (match application_directory with
    | some d => if d = "" then envMatcalcDir.getD "." else d
    | none => envMatcalcDir.getD ".")

/-- `MatCalcAPI.__init__` (api.py lines 79-94): resolve the application
directory, `os.chdir` to it, then load the library file — the explicit
`mc_core_library_file` argument when given (Python `or`: and non-empty),
otherwise the result of `_find_mc_core_library_file`.  Returns the ordered
list of process-level side effects together with the outcome: the loaded
library path, or the locator's `ValueError` message when the search fails
(in which case the constructor raises after having already changed the
working directory, and no library is loaded). -/
def construct (application_directory envMatcalcDir mc_core_library_file : Option String)
    (platform : String) (files : List MCFile) :
    List CtorEffect × Except String String :=
  let appDir := resolveAppDir application_directory envMatcalcDir
  let lib? : Option String := match mc_core_library_file with
    | some lib => if lib = "" then none else some lib
    | none => none
  match lib? with
  | some lib => ([CtorEffect.chdir appDir, CtorEffect.loadLibrary lib], Except.ok lib)
  | none =>
    match _find_mc_core_library_file (_get_shared_library_extension platform) appDir files with
    | Except.ok path => ([CtorEffect.chdir appDir, CtorEffect.loadLibrary path], Except.ok path)
    | Except.error e => ([CtorEffect.chdir appDir], Except.error e)

/-- C7: on a platform that is not Windows, macOS or Linux, the
suffix-resolution step returns the sentinel `"Unknown OS"`, and constructing
a session without an explicit library-file override fails immediately with
the fatal library-not-found resolution error (no real library file name
starts with `mc_coreUnknown OS` or `libmc_coreUnknown OS`, so the search
finds nothing). -/
theorem unsupported_platform_fails (platform : String)
    (application_directory envMatcalcDir : Option String) (files : List MCFile)
    (hw : stringStartsWith platform "win" = false)
    (hd : stringStartsWith platform "darwin" = false)
    (hl : stringStartsWith platform "linux" = false)
    (hfiles : ∀ f ∈ files, matchesPattern "Unknown OS" f.name = false) :
    _get_shared_library_extension platform = "Unknown OS" ∧
    (construct application_directory envMatcalcDir none platform files).2 =
      Except.error ("Could not find mc_core library file in \x27" ++
        resolveAppDir application_directory envMatcalcDir ++ "\x27") := by
  have hext : _get_shared_library_extension platform = "Unknown OS" := by
    rw [_get_shared_library_extension, hw, hd, hl]
    rfl
  refine ⟨hext, ?_⟩
  rw [construct]
  rw [hext]
  rw [find_error_of_no_match _ _ _ hfiles]

/-- C7 witness: on platform `freebsd` with a directory containing the usual
`mc_core.so`, the suffix step yields the sentinel and construction without
an override fails with the resolution error. -/
theorem unsupported_platform_fails_witness :
    _get_shared_library_extension "freebsd" = "Unknown OS" ∧
    (construct (some "/opt/mc") none none "freebsd" [⟨"mc_core.so", 5000000⟩]).2 =
      Except.error "Could not find mc_core library file in \x27/opt/mc\x27" := by
  have h := unsupported_platform_fails "freebsd" (some "/opt/mc") none
    [⟨"mc_core.so", 5000000⟩] (by rfl) (by rfl) (by rfl) (by decide)
  exact ⟨h.1, by rw [h.2]; rfl⟩

/-- C8: the constructor resolves the application directory as the explicitly
passed (non-empty) directory when given, otherwise the value of the
`MATCALC_DIR` environment variable when set (and non-empty), otherwise the
current directory `"."`; and its first process-level side effect is
`os.chdir` to the resolved directory, so the working-directory change
precedes any library loading. -/
theorem constructor_fallback_and_chdir
    (application_directory envMatcalcDir mc_core_library_file : Option String)
    (platform : String) (files : List MCFile) :
    (∀ d, application_directory = some d → d ≠ "" →
      resolveAppDir application_directory envMatcalcDir = d) ∧
    (∀ e, (application_directory = none ∨ application_directory = some "") →
      envMatcalcDir = some e → e ≠ "" →
      resolveAppDir application_directory envMatcalcDir = e) ∧
    ((application_directory = none ∨ application_directory = some "") →
      envMatcalcDir = none →
      resolveAppDir application_directory envMatcalcDir = ".") ∧
    ∃ rest,
      (construct application_directory envMatcalcDir mc_core_library_file
          platform files).1 =
        CtorEffect.chdir (resolveAppDir application_directory envMatcalcDir) :: rest ∧
      ∀ p, CtorEffect.loadLibrary p ∈
          (construct application_directory envMatcalcDir mc_core_library_file
            platform files).1 →
        CtorEffect.loadLibrary p ∈ rest := by
  refine ⟨?_, ?_, ?_, ?_⟩
  · intro d hd hne
    subst hd
    simp [resolveAppDir, pathOf, hne]
  · intro e hexp henv hne
    subst henv
    rcases hexp with h | h <;> subst h <;> simp [resolveAppDir, pathOf, hne]
  · intro hexp henv
    subst henv
    rcases hexp with h | h <;> subst h <;> simp [resolveAppDir, pathOf]
  · have hcases :
        ∃ rest, (construct application_directory envMatcalcDir mc_core_library_file
            platform files).1 =
          CtorEffect.chdir (resolveAppDir application_directory envMatcalcDir) :: rest := by
      simp only [construct]
      rcases mc_core_library_file with _ | lib
      · rcases hfind : _find_mc_core_library_file
            (_get_shared_library_extension platform)
            (resolveAppDir application_directory envMatcalcDir) files with err | path
        · exact ⟨[], by simp [hfind]⟩
        · exact ⟨[CtorEffect.loadLibrary path], by simp [hfind]⟩
      · by_cases hlib : lib = ""
        · rcases hfind : _find_mc_core_library_file
              (_get_shared_library_extension platform)
              (resolveAppDir application_directory envMatcalcDir) files with err | path
          · exact ⟨[], by simp [hlib, hfind]⟩
          · exact ⟨[CtorEffect.loadLibrary path], by simp [hlib, hfind]⟩
        · exact ⟨[CtorEffect.loadLibrary lib], by simp [hlib]⟩
    rcases hcases with ⟨rest, hrest⟩
    refine ⟨rest, hrest, ?_⟩
    intro p hp
    rw [hrest] at hp
    rcases List.mem_cons.mp hp with h | h
    · exact absurd h (by intro hc; cases hc)
    · exact h

/-- C8 witness: the fallback chain at concrete inputs, and the chdir-first
effect order for a concrete construction. -/
theorem constructor_fallback_and_chdir_witness :
    resolveAppDir (some "/opt/mc") (some "/env/mc") = "/opt/mc" ∧
    resolveAppDir none (some "/env/mc") = "/env/mc" ∧
    resolveAppDir none none = "." ∧
    ∃ rest, (construct (some "/opt/mc") none none "linux" [⟨"mc_core.so", 5⟩]).1 =
      CtorEffect.chdir "/opt/mc" :: rest := by
  have h1 := constructor_fallback_and_chdir (some "/opt/mc") (some "/env/mc") none
    "linux" [⟨"mc_core.so", 5⟩]
  have h2 := constructor_fallback_and_chdir none (some "/env/mc") none
    "linux" [⟨"mc_core.so", 5⟩]
  have h3 := constructor_fallback_and_chdir none none none
    "linux" [⟨"mc_core.so", 5⟩]
  have h4 := constructor_fallback_and_chdir (some "/opt/mc") none none
    "linux" [⟨"mc_core.so", 5⟩]
  refine ⟨h1.1 "/opt/mc" rfl (by decide),
    h2.2.1 "/env/mc" (Or.inl rfl) rfl (by decide),
    h3.2.2.1 (Or.inl rfl) rfl, ?_⟩
  rcases h4.2.2.2 with ⟨rest, hrest, _⟩
  refine ⟨rest, ?_⟩
  rw [hrest]
  rfl

/-- What a file descriptor refers to: the original standard-output sink
("terminal") or the null device opened by the suppressor. -/
inductive FdTarget
  | terminal
  | devnull
  deriving DecidableEq, Repr

/-- The process file-descriptor table: entry `i` is what descriptor `i`
currently refers to (`none` = closed/unused). -/
def FdTable : Type :=
  List (Option FdTarget)

/-- What descriptor `fd` refers to (closed and out-of-range descriptors give
`none`). -/
def fdGet (tbl : FdTable) (fd : Nat) : Option FdTarget :=
  List.getD tbl fd none

/-- `os.close(fd)`: the descriptor becomes unused. -/
def fdClose (tbl : FdTable) (fd : Nat) : FdTable :=
  List.set tbl fd none

/-- `os.open(os.devnull, os.O_WRONLY)`: POSIX allocates the lowest unused
descriptor and points it at the null device; returns the new table and the
allocated descriptor. -/
def fdOpenNull : FdTable → FdTable × Nat
  | [] => ([some FdTarget.devnull], 0)
  | none :: rest => (some FdTarget.devnull :: rest, 0)
  | some t :: rest =>
      let r := fdOpenNull rest
      (some t :: r.1, r.2 + 1)

/-- `os.dup2(src, dst)`: descriptor `dst` is made to refer to whatever `src`
refers to. -/
def fdDup2 (tbl : FdTable) (src dst : Nat) : FdTable :=
  List.set tbl dst (fdGet tbl src)

/-- The observable outcome of one use of the `suppressing_stdout` context
manager around a caller block. -/
structure SuppressRun where
  warnings : List String
  raisedRuntimeError : Bool
  bodyRan : Bool
  duringTarget : Option FdTarget
  finalTbl : FdTable
  bodyRaised : Bool

/-- `suppressing_stdout` (utils.py lines 17-33, identical in
`src/pymatcalc/utils.py` and `src/pymatcalc6/utils.py`), under the
descriptor-table semantics of `os.close`/`os.open`/`os.dup2`:

* if `STDOUT_FILENO < 0` (module-import capture failed), the generator warns
  and returns before yielding; `contextlib`'s `_GeneratorContextManager`
  then raises `RuntimeError("generator didn't yield")` from `__enter__`, so
  the caller's block never runs and the table is untouched;
* otherwise it closes `STDOUT_FILENO`, opens the null device (allocating the
  lowest free descriptor) and `dup2`s it onto `STDOUT_FILENO`, yields to the
  body, and in a `finally` clause closes `STDOUT_FILENO` and `dup2`s the
  saved duplicate `STDOUT_DUPLICATE` back onto it.  The `finally` clause
  runs on both the normal and the exceptional exit of the body, which is why
  `finalTbl` is computed independently of `bodyRaises`; an exception raised
  by the body propagates (`bodyRaised`). -/
def suppressing_stdout (stdoutFileno : Int) (stdoutDuplicate : Nat)
    (tbl : FdTable) (bodyRaises : Bool) : SuppressRun :=
  if stdoutFileno < 0 then
    { warnings := ["stdout suppression not available in this environment"],
      raisedRuntimeError := true, bodyRan := false,
      duringTarget := none, finalTbl := tbl, bodyRaised := false }
  else
    let fd := stdoutFileno.toNat
    let t1 := fdClose tbl fd
    let opened := fdOpenNull t1
    let t3 := fdDup2 opened.1 opened.2 fd
    let t4 := fdClose t3 fd
    let t5 := fdDup2 t4 stdoutDuplicate fd
    { warnings := [], raisedRuntimeError := false, bodyRan := true,
      duringTarget := fdGet t3 fd, finalTbl := t5, bodyRaised := bodyRaises }

lemma fdGet_some_lt : ∀ (tbl : FdTable) (j : Nat) (t : FdTarget),
    fdGet tbl j = some t → j < List.length tbl
  | [], j, t, h => by simp [fdGet, List.getD] at h
  | a :: rest, 0, t, _ => Nat.succ_le_succ (Nat.zero_le _)
  | a :: rest, j + 1, t, h =>
      Nat.succ_le_succ (fdGet_some_lt rest j t h)

lemma fdGet_set_self : ∀ (tbl : FdTable) (fd : Nat) (v : Option FdTarget),
    fd < List.length tbl → fdGet (List.set tbl fd v) fd = v
  | [], fd, _, h => absurd h (by simp)
  | a :: rest, 0, v, _ => rfl
  | a :: rest, fd + 1, v, h =>
      fdGet_set_self rest fd v (Nat.lt_of_succ_lt_succ h)

lemma fdGet_set_ne : ∀ (tbl : FdTable) (i j : Nat) (v : Option FdTarget),
    i ≠ j → fdGet (List.set tbl i v) j = fdGet tbl j
  | [], _, _, _, _ => rfl
  | a :: rest, 0, 0, v, h => absurd rfl h
  | a :: rest, 0, j + 1, v, _ => rfl
  | a :: rest, i + 1, 0, v, _ => rfl
  | a :: rest, i + 1, j + 1, v, h =>
      fdGet_set_ne rest i j v (fun hc => h (by rw [hc]))

lemma fdOpenNull_preserves : ∀ (tbl : FdTable) (j : Nat) (t : FdTarget),
    fdGet tbl j = some t → fdGet (fdOpenNull tbl).1 j = some t
  | [], j, t, h => by simp [fdGet, List.getD] at h
  | none :: rest, 0, t, h => by simp [fdGet, List.getD] at h
  | none :: rest, j + 1, t, h => h
  | some a :: rest, 0, t, h => h
  | some a :: rest, j + 1, t, h => fdOpenNull_preserves rest j t h

lemma fdOpenNull_new : ∀ (tbl : FdTable),
    fdGet (fdOpenNull tbl).1 (fdOpenNull tbl).2 = some FdTarget.devnull
  | [] => rfl
  | none :: _rest => rfl
  | some _a :: rest => fdOpenNull_new rest

lemma fdOpenNull_length_ge : ∀ (tbl : FdTable),
    List.length tbl ≤ List.length (fdOpenNull tbl).1
  | [] => Nat.zero_le _
  | none :: _rest => Nat.le_refl _
  | some _a :: rest => Nat.succ_le_succ (fdOpenNull_length_ge rest)

lemma suppressing_stdout_pos_eq (stdoutFileno : Int) (stdoutDuplicate : Nat)
    (tbl : FdTable) (b : Bool) (h0 : ¬ stdoutFileno < 0) :
    suppressing_stdout stdoutFileno stdoutDuplicate tbl b =
      { warnings := [], raisedRuntimeError := false, bodyRan := true,
        duringTarget := fdGet
          (fdDup2 (fdOpenNull (fdClose tbl stdoutFileno.toNat)).1
            (fdOpenNull (fdClose tbl stdoutFileno.toNat)).2 stdoutFileno.toNat)
          stdoutFileno.toNat,
        finalTbl := fdDup2
          (fdClose
            (fdDup2 (fdOpenNull (fdClose tbl stdoutFileno.toNat)).1
              (fdOpenNull (fdClose tbl stdoutFileno.toNat)).2 stdoutFileno.toNat)
            stdoutFileno.toNat)
          stdoutDuplicate stdoutFileno.toNat,
        bodyRaised := b } := by
  rw [suppressing_stdout, if_neg h0]

/-- C9: when standard output was captured at import time, the suppression
scope makes the standard-output descriptor refer to the null device for the
duration of the body (`duringTarget = devnull`) and, on every exit path —
the body completing normally or raising (`bodyRaises` arbitrary, the
exception propagating) — the `finally` clause restores the descriptor to the
saved prior target, so writes after the scope are observed normally
(`fdGet finalTbl fd = terminal`). -/
theorem suppressing_stdout_scope (stdoutFileno : Int) (stdoutDuplicate : Nat)
    (tbl : FdTable) (bodyRaises : Bool)
    (h0 : ¬ stdoutFileno < 0)
    (hfd : fdGet tbl stdoutFileno.toNat = some FdTarget.terminal)
    (hdup : fdGet tbl stdoutDuplicate = some FdTarget.terminal)
    (hne : stdoutFileno.toNat ≠ stdoutDuplicate) :
    (suppressing_stdout stdoutFileno stdoutDuplicate tbl bodyRaises).duringTarget =
      some FdTarget.devnull ∧
    fdGet (suppressing_stdout stdoutFileno stdoutDuplicate tbl bodyRaises).finalTbl
      stdoutFileno.toNat = some FdTarget.terminal ∧
    (suppressing_stdout stdoutFileno stdoutDuplicate tbl bodyRaises).bodyRan = true ∧
    (suppressing_stdout stdoutFileno stdoutDuplicate tbl bodyRaises).bodyRaised =
      bodyRaises := by
  rw [suppressing_stdout_pos_eq stdoutFileno stdoutDuplicate tbl bodyRaises h0]
  set fd := stdoutFileno.toNat with hfddef
  have hlen0 : fd < List.length tbl := fdGet_some_lt tbl fd _ hfd
  have ht1dup : fdGet (fdClose tbl fd) stdoutDuplicate = some FdTarget.terminal := by
    rw [fdClose, fdGet_set_ne tbl fd stdoutDuplicate none hne]
    exact hdup
  have ht2dup : fdGet (fdOpenNull (fdClose tbl fd)).1 stdoutDuplicate =
      some FdTarget.terminal :=
    fdOpenNull_preserves (fdClose tbl fd) stdoutDuplicate _ ht1dup
  have ht2new : fdGet (fdOpenNull (fdClose tbl fd)).1 (fdOpenNull (fdClose tbl fd)).2 =
      some FdTarget.devnull :=
    fdOpenNull_new (fdClose tbl fd)
  have hlen1 : List.length (fdClose tbl fd) = List.length tbl := by
    rw [fdClose]; exact List.length_set tbl fd none
  have hlen2 : fd < List.length (fdOpenNull (fdClose tbl fd)).1 :=
    Nat.lt_of_lt_of_le (hlen1 ▸ hlen0) (fdOpenNull_length_ge (fdClose tbl fd))
  have hduring : fdGet
      (fdDup2 (fdOpenNull (fdClose tbl fd)).1 (fdOpenNull (fdClose tbl fd)).2 fd) fd =
      some FdTarget.devnull := by
    rw [fdDup2, fdGet_set_self _ fd _ hlen2, ht2new]
  have ht3dup : fdGet
      (fdDup2 (fdOpenNull (fdClose tbl fd)).1 (fdOpenNull (fdClose tbl fd)).2 fd)
      stdoutDuplicate = some FdTarget.terminal := by
    rw [fdDup2, fdGet_set_ne _ fd stdoutDuplicate _ hne]
    exact ht2dup
  have ht4dup : fdGet
      (fdClose
        (fdDup2 (fdOpenNull (fdClose tbl fd)).1 (fdOpenNull (fdClose tbl fd)).2 fd) fd)
      stdoutDuplicate = some FdTarget.terminal := by
    rw [fdClose, fdGet_set_ne _ fd stdoutDuplicate none hne]
    exact ht3dup
  have hlen4 : fd < List.length
      (fdClose
        (fdDup2 (fdOpenNull (fdClose tbl fd)).1 (fdOpenNull (fdClose tbl fd)).2 fd) fd) := by
    rw [fdClose, List.length_set, fdDup2, List.length_set]
    exact hlen2
  have hfinal : fdGet
      (fdDup2
        (fdClose
          (fdDup2 (fdOpenNull (fdClose tbl fd)).1 (fdOpenNull (fdClose tbl fd)).2 fd) fd)
        stdoutDuplicate fd) fd = some FdTarget.terminal := by
    rw [fdDup2, fdGet_set_self _ fd _ hlen4]
    exact ht4dup
  exact ⟨hduring, hfinal, rfl, rfl⟩

/-- C9 witness: with stdout descriptor 1 at the terminal, the duplicate saved
at descriptor 2, and a body that raises, the body runs with descriptor 1 at
the null device and descriptor 1 is restored to the terminal afterwards. -/
theorem suppressing_stdout_scope_witness :
    (suppressing_stdout 1 2
      [some FdTarget.terminal, some FdTarget.terminal, some FdTarget.terminal]
      true).duringTarget = some FdTarget.devnull ∧
    fdGet (suppressing_stdout 1 2
      [some FdTarget.terminal, some FdTarget.terminal, some FdTarget.terminal]
      true).finalTbl 1 = some FdTarget.terminal ∧
    (suppressing_stdout 1 2
      [some FdTarget.terminal, some FdTarget.terminal, some FdTarget.terminal]
      true).bodyRaised = true := by
  have h := suppressing_stdout_scope 1 2
    [some FdTarget.terminal, some FdTarget.terminal, some FdTarget.terminal]
    true (by decide) (by rfl) (by rfl) (by decide)
  exact ⟨h.1, h.2.1, h.2.2.2⟩

/-- C10: when the standard-output descriptor could not be captured at
module-import time (`STDOUT_FILENO < 0`), `suppressing_stdout` issues the warning
and returns before yielding, so entering the context manager raises
`contextlib`'s runtime error, the caller's block never executes (rather than
running with suppression disabled), and the descriptor table is untouched. -/
theorem suppressing_stdout_unavailable (stdoutFileno : Int) (stdoutDuplicate : Nat)
    (tbl : FdTable) (bodyRaises : Bool) (h : stdoutFileno < 0) :
    suppressing_stdout stdoutFileno stdoutDuplicate tbl bodyRaises =
      { warnings := ["stdout suppression not available in this environment"],
        raisedRuntimeError := true, bodyRan := false,
        duringTarget := none, finalTbl := tbl, bodyRaised := false } := by
  rw [suppressing_stdout, if_pos h]

/-- C10 witness: at the sentinel `STDOUT_FILENO = -1`, entering the context
manager warns, raises the runtime error, and never runs the body. -/
theorem suppressing_stdout_unavailable_witness :
    (suppressing_stdout (-1) 2 [some FdTarget.terminal] true).warnings =
      ["stdout suppression not available in this environment"] ∧
    (suppressing_stdout (-1) 2 [some FdTarget.terminal] true).raisedRuntimeError = true ∧
    (suppressing_stdout (-1) 2 [some FdTarget.terminal] true).bodyRan = false := by
  have h := suppressing_stdout_unavailable (-1) 2 [some FdTarget.terminal] true (by decide)
  rw [h]
  exact ⟨rfl, rfl, rfl⟩
